import Mathlib

/-! Verification development for tensorflow/lite/delegates/gpu/cl/kernels/conv_3d.cc.

The file embeds, shallowly and executably, the Conv3D configuration selector
(`GuessBestParams`), the launch-grid calculator (`GetGridSize`), the autotuner
guard (`Tune`), runtime argument binding (`BindArguments`) and the OpenCL
kernel source generator (`GenerateConv3D`).  The generated kernel text is
modelled as the list of emitted string chunks (each `c += ...` of the source
appends one chunk, in source order); the final artifact is the concatenation
of the chunks.  Chunks are lists of characters so that textual reasoning stays
inside `List` lemmas. -/

/-- Calculation precisions (precision.h). -/
inductive CalculationsPrecision
  | F32
  | F16
  | F32_F16
deriving DecidableEq, Repr

/-- Tensor storage kinds (tensor_type.h). -/
inductive TensorStorageType
  | BUFFER
  | IMAGE_BUFFER
  | TEXTURE_2D
  | TEXTURE_3D
  | TEXTURE_ARRAY
  | SINGLE_TEXTURE_2D
deriving DecidableEq, Repr

/-- Weight staging modes.  Modelled from the spec: the `WeightsUploadType`
enum is declared in conv_3d.h (outside src/); its four constructors are the
four staging modes used throughout conv_3d.cc. -/
inductive WeightsUploadType
  | LOCAL_MEM_ASYNC_SUBGROUP
  | LOCAL_MEM_BY_THREADS
  | GLOBAL_MEM
  | TEXTURES_MEM
deriving DecidableEq, Repr

/-- Device classes distinguished by `Conv3D::GuessBestParams` via
`device.IsNvidia()` / `IsPowerVR()` / `IsAdreno()` / `IsMali()`, plus the
generic fallback (final `else`). -/
inductive DeviceClass
  | Nvidia
  | PowerVR
  | Adreno
  | Mali
  | Other
deriving DecidableEq, Repr

/-- Nonnegative 3-vector (int3 of sizes, orders and grid extents). -/
structure Int3 where
  x : Nat
  y : Nat
  z : Nat
deriving DecidableEq, Repr

/-- int3 component access, `v[i]` of the source. -/
def Int3.get (v : Int3) : Nat → Nat
  | 0 => v.x
  | 1 => v.y
  | _ => v.z

/-- int3 component update, `v[i] = val` of the source. -/
def Int3.setIdx (v : Int3) (i val : Nat) : Int3 :=
  match i with
  | 0 => { v with x := val }
  | 1 => { v with y := val }
  | _ => { v with z := val }

/-- Nonnegative 4-vector (int4 block size). -/
structure Int4 where
  x : Nat
  y : Nat
  z : Nat
  w : Nat
deriving DecidableEq, Repr

/-- Signed 3-vector: `stride_`, `padding_`, `kernel_size_`, `dilation_` of
Conv3D carry signed ints (padding is negated). -/
structure IntVec3 where
  x : Int
  y : Int
  z : Int
deriving DecidableEq, Repr

/-- The tuning configuration.  Modelled from the spec: `Conv3D::ConvParams`
is declared in conv_3d.h (outside src/); its fields are exactly the ones
read and written by conv_3d.cc. -/
structure ConvParams where
  block_size : Int4
  work_group_size : Int3
  work_group_launch_order : Int3
  src_depth_loop_size : Nat
  weights_upload_type : WeightsUploadType
  x_kernel_is_1 : Bool
  y_kernel_is_1 : Bool
  z_kernel_is_1 : Bool
deriving DecidableEq, Repr

/-- Modelled from the spec: `ConvParams::AreWeightsBuffer` (conv_3d.h, outside
src/).  conv_3d.cc stages weights through a flat buffer pointer
(`filters_loc`) for every upload mode except `TEXTURES_MEM`, which samples
four weight images instead, so the predicate is `≠ TEXTURES_MEM`. -/
def ConvParams.areWeightsBuffer (cp : ConvParams) : Bool :=
  cp.weights_upload_type != WeightsUploadType.TEXTURES_MEM

/-- Convolution3DAttributes: kernel shape (o, i, w, h, d), per-axis strides,
dilations and prepended/appended paddings (common/operations.h). -/
structure Convolution3DAttributes where
  weights_o : Nat
  weights_i : Nat
  weights_w : Nat
  weights_h : Nat
  weights_d : Nat
  strides_w : Nat
  strides_h : Nat
  strides_d : Nat
  dilations_w : Nat
  dilations_h : Nat
  dilations_d : Nat
  padding_prepended_w : Nat
  padding_prepended_h : Nat
  padding_prepended_d : Nat
  padding_appended_w : Nat
  padding_appended_h : Nat
  padding_appended_d : Nat
deriving DecidableEq, Repr

/-- Operation definition: the fields of OperationDef that conv_3d.cc reads
(precision, storage type of src_tensors[0], batch support). -/
structure OperationDef where
  precision : CalculationsPrecision
  srcStorage : TensorStorageType
  batchSupported : Bool
deriving DecidableEq, Repr

/-- Modelled from the spec: `DivideRoundUp` (common/util.h, outside src/) is
ceiling division. -/
def divideRoundUp (n d : Nat) : Nat := (n + d - 1) / d

/-- The derived x-axis unit-kernel flag, `x_kernel_is_1` of
`Conv3D::GuessBestParams` (conv_3d.cc:862-865): kernel extent, stride and
dilation are 1 and both prepended and appended padding are 0. -/
def xKernelIs1 (a : Convolution3DAttributes) : Bool :=
  a.weights_w == 1 && a.strides_w == 1 && a.dilations_w == 1 &&
  a.padding_prepended_w == 0 && a.padding_appended_w == 0

/-- The derived y-axis unit-kernel flag (conv_3d.cc:866-869). -/
def yKernelIs1 (a : Convolution3DAttributes) : Bool :=
  a.weights_h == 1 && a.strides_h == 1 && a.dilations_h == 1 &&
  a.padding_prepended_h == 0 && a.padding_appended_h == 0

/-- The derived z-axis unit-kernel flag (conv_3d.cc:870-873). -/
def zKernelIs1 (a : Convolution3DAttributes) : Bool :=
  a.weights_d == 1 && a.strides_d == 1 && a.dilations_d == 1 &&
  a.padding_prepended_d == 0 && a.padding_appended_d == 0

/-- The spec's version of the x-axis unit-kernel flag, following the spec's
words only (ConvSpec carries only padding-before per axis, so the condition
is kernel-extent=1, stride=1, dilation=1, padding-before=0).  Declared for
refinement comparison with `xKernelIs1`. -/
def specXKernelIs1 (a : Convolution3DAttributes) : Bool :=
  a.weights_w == 1 && a.strides_w == 1 && a.dilations_w == 1 &&
  a.padding_prepended_w == 0

/-- `Conv3D::GuessBestParams` core overload (conv_3d.cc:754-855).  Sequential
mutations of the source are phrased as `let`-chains in the same order. -/
def guessBestParams (device : DeviceClass) (precision : CalculationsPrecision)
    (src_slices dst_slices : Nat) (x1 y1 z1 : Bool) : ConvParams :=
  match device with
  | DeviceClass.Nvidia =>
    let bw := if dst_slices % 4 = 0 ∨ 8 ≤ dst_slices then 4
      else if dst_slices % 2 = 0 ∨ 4 ≤ dst_slices then 2
      else dst_slices
    let s1 := if src_slices % 2 = 0 then 2 else 1
    let s2 := if src_slices % 4 = 0 ∧ bw ≤ 2 then 4 else s1
    { block_size := ⟨1, 1, 1, bw⟩
      work_group_size := ⟨8, 4, 1⟩
      work_group_launch_order := ⟨2, 0, 1⟩
      src_depth_loop_size := s2
      weights_upload_type := WeightsUploadType.LOCAL_MEM_BY_THREADS
      x_kernel_is_1 := x1, y_kernel_is_1 := y1, z_kernel_is_1 := z1 }
  | DeviceClass.PowerVR =>
    let bw0 := if dst_slices % 8 = 0 ∨ 32 ≤ dst_slices then 8
      else if dst_slices % 4 = 0 ∨ 8 ≤ dst_slices then 4
      else if dst_slices % 2 = 0 ∨ 4 ≤ dst_slices then 2
      else dst_slices
    let bwA := min 4 bw0
    let s1 := if src_slices % 2 = 0 then 2 else 1
    let s2 := if src_slices % 4 = 0 ∧ bwA ≤ 2 then 4 else s1
    let t1 := if src_slices % 2 = 0 then 2 else s2
    let t2 := if src_slices % 4 = 0 then 4 else t1
    let t3 := if src_slices ≤ 8 then src_slices else t2
    let sdl := if bwA = 1 then t3 else s2
    { block_size := if precision = CalculationsPrecision.F16 then ⟨2, 1, 1, bwA⟩ else ⟨1, 1, 1, bw0⟩
      work_group_size := if precision = CalculationsPrecision.F16 then ⟨4, 8, 1⟩ else ⟨8, 4, 1⟩
      work_group_launch_order := ⟨2, 0, 1⟩
      src_depth_loop_size := if precision = CalculationsPrecision.F16 then sdl else 1
      weights_upload_type := WeightsUploadType.LOCAL_MEM_ASYNC_SUBGROUP
      x_kernel_is_1 := x1, y_kernel_is_1 := y1, z_kernel_is_1 := z1 }
  | DeviceClass.Adreno =>
    { block_size := ⟨2, 2, 1, 2⟩
      work_group_size := ⟨8, 4, 1⟩
      work_group_launch_order := ⟨0, 1, 2⟩
      src_depth_loop_size := 1
      weights_upload_type := WeightsUploadType.TEXTURES_MEM
      x_kernel_is_1 := x1, y_kernel_is_1 := y1, z_kernel_is_1 := z1 }
  | DeviceClass.Mali =>
    let bw := if dst_slices % 4 = 0 ∨ 8 ≤ dst_slices then 4
      else if dst_slices % 2 = 0 ∨ 4 ≤ dst_slices then 2
      else dst_slices
    let s1 := if src_slices % 2 = 0 then 2 else 1
    let s2 := if src_slices % 4 = 0 ∧ bw ≤ 2 then 4 else s1
    { block_size := ⟨1, 1, 1, bw⟩
      work_group_size := ⟨8, 4, 1⟩
      work_group_launch_order := ⟨0, 1, 2⟩
      src_depth_loop_size := s2
      weights_upload_type := WeightsUploadType.GLOBAL_MEM
      x_kernel_is_1 := x1, y_kernel_is_1 := y1, z_kernel_is_1 := z1 }
  | DeviceClass.Other =>
    { block_size := ⟨2, 2, 1, 2⟩
      work_group_size := ⟨8, 4, 1⟩
      work_group_launch_order := ⟨0, 1, 2⟩
      src_depth_loop_size := 1
      weights_upload_type := WeightsUploadType.TEXTURES_MEM
      x_kernel_is_1 := x1, y_kernel_is_1 := y1, z_kernel_is_1 := z1 }

/-- `Conv3D::GuessBestParams` attribute overload (conv_3d.cc:857-876). -/
def guessBestParamsAttr (device : DeviceClass) (precision : CalculationsPrecision)
    (a : Convolution3DAttributes) : ConvParams :=
  guessBestParams device precision (divideRoundUp a.weights_i 4)
    (divideRoundUp a.weights_o 4) (xKernelIs1 a) (yKernelIs1 a) (zKernelIs1 a)

/-- `need_local_mem` of GenerateConv3D (conv_3d.cc:350-354): the two
group-shared weight staging modes. -/
def needLocalMem (cp : ConvParams) : Bool :=
  cp.weights_upload_type == WeightsUploadType.LOCAL_MEM_BY_THREADS ||
  cp.weights_upload_type == WeightsUploadType.LOCAL_MEM_ASYNC_SUBGROUP

/-- `Conv3D::GetGridSize` (conv_3d.cc:117-135), as a function of the
destination extents. -/
def getGridSize (cp : ConvParams) (dstW dstH dstS dstD dstB : Nat) : Int3 :=
  let grid_x := divideRoundUp (dstW * dstB) cp.block_size.x
  let grid_y := divideRoundUp dstH cp.block_size.y
  let grid_z := divideRoundUp dstS cp.block_size.w * divideRoundUp dstD cp.block_size.z
  let wg : Int3 := ⟨divideRoundUp grid_x cp.work_group_size.x,
                    divideRoundUp grid_y cp.work_group_size.y,
                    divideRoundUp grid_z cp.work_group_size.z⟩
  ⟨wg.get (cp.work_group_launch_order.get 0) * cp.work_group_size.x,
   wg.get (cp.work_group_launch_order.get 1) * cp.work_group_size.y,
   wg.get (cp.work_group_launch_order.get 2) * cp.work_group_size.z⟩

/-- The logical element counts of the three launch axes: the quantities
`grid_x`, `grid_y`, `grid_z` of `Conv3D::GetGridSize` (conv_3d.cc:118-124). -/
def elemCount (cp : ConvParams) (dstW dstH dstS dstD dstB : Nat) : Nat → Nat
  | 0 => divideRoundUp (dstW * dstB) cp.block_size.x
  | 1 => divideRoundUp dstH cp.block_size.y
  | _ => divideRoundUp dstS cp.block_size.w * divideRoundUp dstD cp.block_size.z

/-- `Conv3D::Tune` (conv_3d.cc:137-152).  `best_work_group` models the value
produced by the external benchmark search `GetBestWorkGroupConv`; the Bool of
the result records whether that benchmark hook was invoked. -/
def tune (cp : ConvParams) (best_work_group : Int3) : ConvParams × Bool :=
  if cp.weights_upload_type = WeightsUploadType.LOCAL_MEM_ASYNC_SUBGROUP ∨
     cp.weights_upload_type = WeightsUploadType.LOCAL_MEM_BY_THREADS then
    (cp, false)
  else if cp.work_group_launch_order.x = 0 ∧ cp.work_group_launch_order.y = 1 ∧
          cp.work_group_launch_order.z = 2 then
    ({ cp with work_group_size := best_work_group }, true)
  else
    (cp, false)

/-- `stride_` of the Conv3D constructor (conv_3d.cc:37). -/
def conv3DStride (a : Convolution3DAttributes) : IntVec3 :=
  ⟨(a.strides_w : Int), (a.strides_h : Int), (a.strides_d : Int)⟩

/-- `padding_` of the Conv3D constructor (conv_3d.cc:38-39): the negated
prepended paddings. -/
def conv3DPadding (a : Convolution3DAttributes) : IntVec3 :=
  ⟨-(a.padding_prepended_w : Int), -(a.padding_prepended_h : Int), -(a.padding_prepended_d : Int)⟩

/-- `kernel_size_` of the Conv3D constructor (conv_3d.cc:40-41). -/
def conv3DKernelSize (a : Convolution3DAttributes) : IntVec3 :=
  ⟨(a.weights_w : Int), (a.weights_h : Int), (a.weights_d : Int)⟩

/-- `dilation_` of the Conv3D constructor (conv_3d.cc:42). -/
def conv3DDilation (a : Convolution3DAttributes) : IntVec3 :=
  ⟨(a.dilations_w : Int), (a.dilations_h : Int), (a.dilations_d : Int)⟩

/-- `Conv3D::BindArguments` (conv_3d.cc:89-115): the named integer scalars
bound for a dispatch, in order.  `batch` is `src_[0]->Batch()` and
`dstSlices` is `dst_[0]->Slices()`. -/
def bindArguments (cp : ConvParams) (stride padding kernel_size dilation : IntVec3)
    (batch : Int) (dstSlices : Nat) : List (String × Int) :=
  (if cp.x_kernel_is_1 then [] else
    [("stride_x", stride.x), ("padding_x", padding.x * batch),
     ("kernel_size_x", kernel_size.x), ("dilation_x", dilation.x * batch)]) ++
  (if cp.y_kernel_is_1 then [] else
    [("stride_y", stride.y), ("padding_y", padding.y),
     ("kernel_size_y", kernel_size.y), ("dilation_y", dilation.y)]) ++
  (if cp.z_kernel_is_1 then [] else
    [("stride_z", stride.z), ("padding_z", padding.z),
     ("kernel_size_z", kernel_size.z), ("dilation_z", dilation.z)]) ++
  [("grid_size_s", (divideRoundUp dstSlices cp.block_size.w : Int))]

/-- Argument binding of a Conv3D built from attributes `a`
(constructor conv_3d.cc:34-43 feeding BindArguments). -/
def conv3DBindArguments (a : Convolution3DAttributes) (cp : ConvParams)
    (batch : Int) (dstSlices : Nat) : List (String × Int) :=
  bindArguments cp (conv3DStride a) (conv3DPadding a) (conv3DKernelSize a)
    (conv3DDilation a) batch dstSlices

/-- Generated-text chunks: one chunk per string appended to `c` in
`GenerateConv3D` (in source order); the kernel text is their concatenation.
Chunks are character lists so the textual claims stay inside `List` lemmas. -/
abbrev Chunk := List Char

/-- Characters of a string literal. -/
def str (s : String) : Chunk := s.data

/-- Characters of `std::to_string` applied to a nonnegative int. -/
def nstr (n : Nat) : Chunk := (Nat.repr n).data

/-- `buffer_type` (conv_3d.cc:331-332). -/
def bufferType (st : TensorStorageType) : Bool :=
  st == TensorStorageType.BUFFER || st == TensorStorageType.IMAGE_BUFFER

/-- `manual_clamp_x` (conv_3d.cc:334). -/
def manualClampX (od : OperationDef) (cp : ConvParams) : Bool :=
  bufferType od.srcStorage && !cp.x_kernel_is_1

/-- `manual_clamp_y` (conv_3d.cc:335). -/
def manualClampY (od : OperationDef) (cp : ConvParams) : Bool :=
  bufferType od.srcStorage && !cp.y_kernel_is_1

/-- `manual_clamp_z` (conv_3d.cc:336-338). -/
def manualClampZ (od : OperationDef) (cp : ConvParams) : Bool :=
  (od.srcStorage != TensorStorageType.TEXTURE_3D) && !cp.z_kernel_is_1

/-- `can_read_out_of_x` (conv_3d.cc:340). -/
def canReadOutOfX (od : OperationDef) : Bool := !bufferType od.srcStorage

/-- `can_read_out_of_y` (conv_3d.cc:341). -/
def canReadOutOfY (od : OperationDef) : Bool := !bufferType od.srcStorage

/-- `can_read_out_of_z` (conv_3d.cc:342-345). -/
def canReadOutOfZ (od : OperationDef) : Bool :=
  od.srcStorage == TensorStorageType.TEXTURE_3D ||
  od.srcStorage == TensorStorageType.TEXTURE_2D ||
  od.srcStorage == TensorStorageType.SINGLE_TEXTURE_2D

/-- `is1x1x1` (conv_3d.cc:347-348). -/
def is1x1x1 (cp : ConvParams) : Bool :=
  cp.x_kernel_is_1 && cp.y_kernel_is_1 && cp.z_kernel_is_1

/-- `total_work_items` (conv_3d.cc:635-636). -/
def totalWorkItems (cp : ConvParams) : Nat :=
  cp.work_group_size.x * cp.work_group_size.y * cp.work_group_size.z

/-- Chunks emitted by a C++ `for (int i = 0; i < n; ++i)` emission loop. -/
def forR (n : Nat) (f : Nat → List Chunk) : List Chunk := (List.range n).flatMap f

/-- Chunks emitted under an `if` of the generator. -/
def optList (b : Bool) (l : List Chunk) : List Chunk := if b then l else []

/-- The destination-bounds gate emitted at conv_3d.cc:369-373 (without local
memory) and conv_3d.cc:713-717 (with local memory). -/
def gateChunk : Chunk :=
  str ("  if (DST_X >= args.dst_tensor.Width() || DST_Y >= args.dst_tensor.Height() || DST_Z >= args.dst_tensor.Depth()) return;\n")

/-- The shared-memory weights cache declaration of conv_3d.cc:436-440, with
its element count. -/
def localDeclChunk (n : Nat) : Chunk :=
  str ("  __local FLT4 weights_cache[") ++ nstr n ++ str ("];\n")

/-- Modelled from the spec: `GetCommonDefines` (kernels/util.cc, outside
src/) emits the precision-dependent macro prelude of every kernel.  The
claims only rely on this chunk being emitted first and being no gate and no
shared-memory declaration. -/
def getCommonDefines : CalculationsPrecision → Chunk
  | CalculationsPrecision.F32 =>
    str ("#define ACCUM_FLT4 float4\n#define FLT float\n#define FLT4 float4\n#define TO_FLT4 convert_float4\n")
  | CalculationsPrecision.F16 =>
    str ("#define ACCUM_FLT4 half4\n#define FLT half\n#define FLT4 half4\n#define TO_FLT4 convert_half4\n")
  | CalculationsPrecision.F32_F16 =>
    str ("#define ACCUM_FLT4 float4\n#define FLT half\n#define FLT4 half4\n#define TO_FLT4 convert_half4\n")

/-- Modelled from the spec: `GetXStrideCorrected` (kernels/util.cc, outside
src/) renders the x input coordinate with the batch folded into width
(spec 4.2 step 4, batch-correction form).  Its exact text is irrelevant to
the claims. -/
def getXStrideCorrected (xCoord batchSize strideX paddingX : String) : Chunk :=
  str ("((" ++ xCoord ++ ") / " ++ batchSize ++ " * " ++ strideX ++ " + (" ++
       xCoord ++ ") % " ++ batchSize ++ ") * " ++ batchSize ++ " + " ++ paddingX)

/-- `launch_remap` (conv_3d.cc:204-207). -/
def launchRemap (o : Int3) : Int3 :=
  ((Int3.mk 0 0 0).setIdx o.x 0 |>.setIdx o.y 1 |>.setIdx o.z 2)

/-- `GenerateGlobalCoordinates` (conv_3d.cc:201-235). -/
def generateGlobalCoordinates (block : Int4) (o : Int3) : List Chunk :=
  let lr := launchRemap o
  (if o.get 0 == 0 then
    [str ("  int DST_X = get_global_id(0) * ") ++ nstr block.x ++ str (";\n")]
   else
    [str ("  int DST_X = (get_group_id(") ++ nstr (lr.get 0) ++
     str (") * get_local_size(0) + get_local_id(0)) * ") ++ nstr block.x ++ str (";\n")]) ++
  (if o.get 1 == 1 then
    [str ("  int DST_Y = get_global_id(1) * ") ++ nstr block.y ++ str (";\n")]
   else
    [str ("  int DST_Y = (get_group_id(") ++ nstr (lr.get 1) ++
     str (") * get_local_size(1) + get_local_id(1)) * ") ++ nstr block.y ++ str (";\n")]) ++
  (if o.get 2 == 2 then
    [str ("  int linear_id_z = get_global_id(2);\n")]
   else
    [str ("  int linear_id_z = get_group_id(") ++ nstr (lr.get 2) ++
     str (") * get_local_size(2) + get_local_id(2);\n")]) ++
  [str ("  int DST_S = (linear_id_z % args.grid_size_s) * ") ++ nstr block.w ++ str (";\n")] ++
  [str ("  int DST_Z = (linear_id_z / args.grid_size_s) * ") ++ nstr block.z ++ str (";\n")]

/-- `get_src_x_coord` (conv_3d.cc:503-514). -/
def getSrcXCoord (od : OperationDef) (cp : ConvParams) (i : Nat) : Chunk :=
  if cp.x_kernel_is_1 then
    (if canReadOutOfX od then str ("DST_X + ") ++ nstr i else str ("xc") ++ nstr i)
  else str ("xck") ++ nstr i

/-- `get_src_y_coord` (conv_3d.cc:515-526). -/
def getSrcYCoord (od : OperationDef) (cp : ConvParams) (i : Nat) : Chunk :=
  if cp.y_kernel_is_1 then
    (if canReadOutOfY od then str ("DST_Y + ") ++ nstr i else str ("yc") ++ nstr i)
  else str ("yck") ++ nstr i

/-- `get_src_z_coord` (conv_3d.cc:527-538). -/
def getSrcZCoord (od : OperationDef) (cp : ConvParams) (i : Nat) : Chunk :=
  if cp.z_kernel_is_1 then
    (if canReadOutOfZ od then str ("DST_Z + ") ++ nstr i else str ("zc") ++ nstr i)
  else str ("zck") ++ nstr i

/-- The three-digit accumulator/source id `zs + ys + xs` (conv_3d.cc:550). -/
def idc (z y x : Nat) : Chunk := nstr z ++ nstr y ++ nstr x

/-- `GenerateUploadByThreads` (conv_3d.cc:161-187), at its two call sites the
local pointer is `weights_cache` and the local id is `lid`; `offset` is the
already-formed global offset text (empty or the offset name followed by
a plus). -/
def generateUploadByThreads (globalPtr offset : String)
    (totalWI elementsToUpload : Nat) : List Chunk :=
  let groups := elementsToUpload / totalWI
  let reminder := elementsToUpload % totalWI
  forR groups (fun i =>
    [str ("    weights_cache[lid + ") ++ nstr (totalWI * i) ++
     str ("] = " ++ globalPtr ++ "[" ++ offset ++ "lid + ") ++ nstr (totalWI * i) ++
     str ("];\n")]) ++
  optList (reminder != 0)
    [str ("    if (lid < ") ++ nstr reminder ++ str (") \x7b\n"),
     str ("      weights_cache[lid + ") ++ nstr (totalWI * groups) ++
       str ("] = " ++ globalPtr ++ "[" ++ offset ++ "lid + ") ++ nstr (totalWI * groups) ++
       str ("];\n"),
     str ("    \x7d\n")]

/-- The weight register / cache slot name (conv_3d.cc:248-253, 272-280). -/
def weightName (weightsAreBuffer : Bool) (wid : Nat) : Chunk :=
  if weightsAreBuffer then str ("weights_cache[") ++ nstr wid ++ str ("]")
  else str ("f") ++ nstr wid

/-- `channels[ch]` (conv_3d.cc:241). -/
def channelName : Nat → String
  | 0 => "x"
  | 1 => "y"
  | 2 => "z"
  | _ => "w"

/-- `GenerateConv` (conv_3d.cc:237-293). -/
def generateConv (precision : CalculationsPrecision) (block : Int4) (offset : Nat)
    (weightsAreBuffer : Bool) : List Chunk :=
  match precision with
  | CalculationsPrecision.F32_F16 =>
    forR block.w (fun s =>
      forR block.z (fun z => forR block.y (fun y => forR block.x (fun x =>
        [str ("    r") ++ nstr s ++ idc z y x ++ str (" += convert_float4(src") ++ idc z y x ++
         str (".x * ") ++ weightName weightsAreBuffer (s * 4 + 0 + offset) ++
         str (" + src") ++ idc z y x ++ str (".y * ") ++ weightName weightsAreBuffer (s * 4 + 1 + offset) ++
         str (" + src") ++ idc z y x ++ str (".z * ") ++ weightName weightsAreBuffer (s * 4 + 2 + offset) ++
         str (" + src") ++ idc z y x ++ str (".w * ") ++ weightName weightsAreBuffer (s * 4 + 3 + offset) ++
         str (");\n")]))))
  | _ =>
    forR block.w (fun s =>
      forR 4 (fun ch =>
        forR block.z (fun z => forR block.y (fun y => forR block.x (fun x =>
          [str ("    r") ++ nstr s ++ idc z y x ++ str (" += ") ++
           weightName weightsAreBuffer (s * 4 + ch + offset) ++
           str (" * src") ++ idc z y x ++ str (".") ++ str (channelName ch) ++ str (";\n")])))))

/-- Conjunction of the validity masks (conv_3d.cc:554-572). -/
def joinSep (sep : Chunk) : List Chunk → Chunk
  | [] => []
  | [c] => c
  | c :: rest => c ++ sep ++ joinSep sep rest

/-- The buffer-address precompute block (conv_3d.cc:540-581). -/
def addressChunks (od : OperationDef) (cp : ConvParams) : List Chunk :=
  optList (bufferType od.srcStorage)
    (forR cp.block_size.z (fun z => forR cp.block_size.y (fun y => forR cp.block_size.x (fun x =>
      let cond :=
        joinSep (str (" && "))
          ((if manualClampX od cp then [str ("mx") ++ nstr x] else []) ++
           (if manualClampY od cp then [str ("my") ++ nstr y] else []) ++
           (if manualClampZ od cp then [str ("mz") ++ nstr z] else []))
      [str ("  args.src_tensor.GetAddress(src_a_") ++ idc z y x ++ str (", ") ++
       getSrcXCoord od cp x ++ str (", ") ++ getSrcYCoord od cp y ++ str (", ") ++
       getSrcZCoord od cp z ++ str (", 0);\n")] ++
      optList (!is1x1x1 cp && od.srcStorage == TensorStorageType.IMAGE_BUFFER)
        [str ("  src_a_") ++ idc z y x ++ str (" = select(-1, src_a_") ++ idc z y x ++
           str (", ") ++ cond ++ str (");\n"),
         str ("  int dz_") ++ idc z y x ++ str (" = select(0, src_layer_offset, ") ++
           cond ++ str (");\n")]))))

/-- `read_src` (conv_3d.cc:597-631). -/
def readSrcChunks (od : OperationDef) (cp : ConvParams) : List Chunk :=
  forR cp.block_size.z (fun z => forR cp.block_size.y (fun y => forR cp.block_size.x (fun x =>
    let multiplier :=
      (if manualClampX od cp then str (" * (FLT)(mx") ++ nstr x ++ str (")") else []) ++
      (if manualClampY od cp then str (" * (FLT)(my") ++ nstr y ++ str (")") else []) ++
      (if manualClampZ od cp then str (" * (FLT)(mz") ++ nstr z ++ str (")") else [])
    if bufferType od.srcStorage then
      let mult := if od.srcStorage == TensorStorageType.IMAGE_BUFFER then [] else multiplier
      [str ("    src") ++ idc z y x ++ str (" = args.src_tensor.Read(src_a_") ++ idc z y x ++
       str (")") ++ mult ++ str (";\n")] ++
      [if !is1x1x1 cp && od.srcStorage == TensorStorageType.IMAGE_BUFFER then
         str ("    src_a_") ++ idc z y x ++ str (" += dz_") ++ idc z y x ++ str (";\n")
       else
         str ("    src_a_") ++ idc z y x ++ str (" += src_layer_offset;\n")]
    else
      [str ("    src") ++ idc z y x ++ str (" = args.src_tensor.Read(") ++
       getSrcXCoord od cp x ++ str (", ") ++ getSrcYCoord od cp y ++ str (", ") ++
       getSrcZCoord od cp z ++ str (", s)") ++ multiplier ++ str (";\n")])))

/-- Header, work-group attribute, kernel head and coordinate recovery
(conv_3d.cc:358-368). -/
def segPreA (od : OperationDef) (cp : ConvParams) : List Chunk :=
  [getCommonDefines od.precision] ++
  optList (needLocalMem cp)
    [str ("__attribute__((reqd_work_group_size(") ++ nstr cp.work_group_size.x ++ str (", ") ++
     nstr cp.work_group_size.y ++ str (", ") ++ nstr cp.work_group_size.z ++ str (")))\n")] ++
  [str ("__kernel void main_function(\n"), str ("$0) \x7b\n")] ++
  generateGlobalCoordinates cp.block_size cp.work_group_launch_order

/-- The pre-loop destination-bounds gate site (conv_3d.cc:369-373). -/
def gateSite1 (cp : ConvParams) : List Chunk := optList (!needLocalMem cp) [gateChunk]

/-- Local id, accumulators and spatial coordinate precompute
(conv_3d.cc:374-435). -/
def segPreB (od : OperationDef) (sc : Bool) (cp : ConvParams) : List Chunk :=
  optList (cp.weights_upload_type == WeightsUploadType.LOCAL_MEM_BY_THREADS)
    [str ("  int lid = get_local_id(1) * ") ++ nstr cp.work_group_size.x ++
     str (" + get_local_id(0);\n")] ++
  forR cp.block_size.w (fun s => forR cp.block_size.z (fun z =>
    forR cp.block_size.y (fun y => forR cp.block_size.x (fun x =>
      [str ("  ACCUM_FLT4 r") ++ nstr s ++ nstr z ++ nstr y ++ nstr x ++
       str (" = (ACCUM_FLT4)(0.0f, 0.0f, 0.0f, 0.0f);\n")])))) ++
  (if !cp.x_kernel_is_1 then
    forR cp.block_size.x (fun x =>
      [if sc then
        str ("  int xc") ++ nstr x ++ str (" = ") ++
        getXStrideCorrected ("(DST_X + " ++ Nat.repr x ++ ")") ("args.src_tensor.Batch()")
          ("args.stride_x") ("args.padding_x") ++ str (";\n")
       else
        str ("  int xc") ++ nstr x ++ str (" = (DST_X + ") ++ nstr x ++
        str (") * args.stride_x + args.padding_x;\n")])
   else if !canReadOutOfX od then
    forR cp.block_size.x (fun x =>
      [str ("  int xc") ++ nstr x ++ str (" = clamp((DST_X + ") ++ nstr x ++
       str ("), 0, args.src_tensor.Width() - 1);\n")])
   else []) ++
  (if !cp.y_kernel_is_1 then
    forR cp.block_size.y (fun y =>
      [str ("  int yc") ++ nstr y ++ str (" = (DST_Y + ") ++ nstr y ++
       str (") * args.stride_y + args.padding_y;\n")])
   else if !canReadOutOfY od then
    forR cp.block_size.y (fun y =>
      [str ("  int yc") ++ nstr y ++ str (" = clamp((DST_Y + ") ++ nstr y ++
       str ("), 0, args.src_tensor.Height() - 1);\n")])
   else []) ++
  (if !cp.z_kernel_is_1 then
    forR cp.block_size.z (fun z =>
      [str ("  int zc") ++ nstr z ++ str (" = (DST_Z + ") ++ nstr z ++
       str (") * args.stride_z + args.padding_z;\n")])
   else if !canReadOutOfZ od then
    forR cp.block_size.z (fun z =>
      [str ("  int zc") ++ nstr z ++ str (" = clamp((DST_Z + ") ++ nstr z ++
       str ("), 0, args.src_tensor.Depth() - 1);\n")])
   else [])

/-- The shared-memory weights cache declaration site (conv_3d.cc:436-440). -/
def localSite (cp : ConvParams) : List Chunk :=
  optList (needLocalMem cp)
    [localDeclChunk (cp.block_size.w * 4 * cp.src_depth_loop_size)]

/-- `kernel_size` (conv_3d.cc:445-448). -/
def kernelSizeChunk (cp : ConvParams) : Chunk :=
  (if cp.x_kernel_is_1 then [] else str (" * args.kernel_size_x")) ++
  (if cp.y_kernel_is_1 then [] else str (" * args.kernel_size_y")) ++
  (if cp.z_kernel_is_1 then [] else str (" * args.kernel_size_z"))

/-- Weight pointer, slice stride and filter offset declarations
(conv_3d.cc:441-459). -/
def segPreC (od : OperationDef) (cp : ConvParams) : List Chunk :=
  optList (cp.weights_upload_type == WeightsUploadType.GLOBAL_MEM)
    [str ("  __global FLT4* weights_cache;\n")] ++
  optList cp.areWeightsBuffer
    [str ("  __global FLT4* filters_loc = args.weights.GetPtr() + DST_S * 4 * args.src_tensor.Slices()") ++
     kernelSizeChunk cp ++ str (";\n")] ++
  optList (bufferType od.srcStorage)
    [str ("  const int src_layer_offset = args.src_tensor.SliceStride();\n")] ++
  optList (!is1x1x1 cp) [str ("  int filter_offset = 0;\n")]

/-- The z spatial loop opening (conv_3d.cc:460-473). -/
def zLoopChunks (od : OperationDef) (cp : ConvParams) : List Chunk :=
  optList (!cp.z_kernel_is_1)
    ([str ("  for (int kz = 0; kz < args.kernel_size_z; ++kz) \x7b\n")] ++
     forR cp.block_size.z (fun z =>
       [str ("  int zck") ++ nstr z ++ str (" = kz * args.dilation_z + zc") ++ nstr z ++ str (";\n")] ++
       optList (manualClampZ od cp)
         [str ("  bool mz") ++ nstr z ++ str (" = zck") ++ nstr z ++ str (" >= 0 && zck") ++
            nstr z ++ str (" < args.src_tensor.Depth();\n"),
          str ("  zck") ++ nstr z ++ str (" = clamp(zck") ++ nstr z ++
            str (", 0, args.src_tensor.Depth() - 1);\n")]))

/-- The y spatial loop opening (conv_3d.cc:474-487). -/
def yLoopChunks (od : OperationDef) (cp : ConvParams) : List Chunk :=
  optList (!cp.y_kernel_is_1)
    ([str ("  for (int ky = 0; ky < args.kernel_size_y; ++ky) \x7b\n")] ++
     forR cp.block_size.y (fun y =>
       [str ("  int yck") ++ nstr y ++ str (" = ky * args.dilation_y + yc") ++ nstr y ++ str (";\n")] ++
       optList (manualClampY od cp)
         [str ("  bool my") ++ nstr y ++ str (" = yck") ++ nstr y ++ str (" >= 0 && yck") ++
            nstr y ++ str (" < args.src_tensor.Height();\n"),
          str ("  yck") ++ nstr y ++ str (" = clamp(yck") ++ nstr y ++
            str (", 0, args.src_tensor.Height() - 1);\n")]))

/-- The x spatial loop opening (conv_3d.cc:488-501). -/
def xLoopChunks (od : OperationDef) (cp : ConvParams) : List Chunk :=
  optList (!cp.x_kernel_is_1)
    ([str ("  for (int kx = 0; kx < args.kernel_size_x; ++kx) \x7b\n")] ++
     forR cp.block_size.x (fun x =>
       [str ("  int xck") ++ nstr x ++ str (" = kx * args.dilation_x + xc") ++ nstr x ++ str (";\n")] ++
       optList (manualClampX od cp)
         [str ("  bool mx") ++ nstr x ++ str (" = xck") ++ nstr x ++ str (" >= 0 && xck") ++
            nstr x ++ str (" < args.src_tensor.Width();\n"),
          str ("  xck") ++ nstr x ++ str (" = clamp(xck") ++ nstr x ++
            str (", 0, args.src_tensor.Width() - 1);\n")]))

/-- Per-iteration weight staging inside the channel-group loop
(conv_3d.cc:637-668). -/
def stagingChunks (cp : ConvParams) : List Chunk :=
  match cp.weights_upload_type with
  | WeightsUploadType.LOCAL_MEM_ASYNC_SUBGROUP =>
    [str ("    async_work_group_copy(weights_cache, filters_loc, ") ++
     nstr (cp.block_size.w * 4 * cp.src_depth_loop_size) ++ str (", 0);\n")]
  | WeightsUploadType.LOCAL_MEM_BY_THREADS =>
    [str ("    barrier(CLK_LOCAL_MEM_FENCE);\n")] ++
    generateUploadByThreads ("filters_loc") ("") (totalWorkItems cp)
      (cp.block_size.w * 4 * cp.src_depth_loop_size)
  | WeightsUploadType.GLOBAL_MEM =>
    [str ("    weights_cache = filters_loc;\n")]
  | WeightsUploadType.TEXTURES_MEM =>
    forR cp.block_size.w (fun ds =>
      let fy := if is1x1x1 cp then "s" else "filter_offset"
      [str ("    FLT4 f") ++ nstr (ds * 4 + 0) ++ str (" = args.weights0.Read(DST_S + ") ++
         nstr ds ++ str (", " ++ fy ++ ");\n") ++
       str ("    FLT4 f") ++ nstr (ds * 4 + 1) ++ str (" = args.weights1.Read(DST_S + ") ++
         nstr ds ++ str (", " ++ fy ++ ");\n") ++
       str ("    FLT4 f") ++ nstr (ds * 4 + 2) ++ str (" = args.weights2.Read(DST_S + ") ++
         nstr ds ++ str (", " ++ fy ++ ");\n") ++
       str ("    FLT4 f") ++ nstr (ds * 4 + 3) ++ str (" = args.weights3.Read(DST_S + ") ++
         nstr ds ++ str (", " ++ fy ++ ");\n")]) ++
    optList (!is1x1x1 cp) [str ("    filter_offset++;\n")]

/-- The compute-loop region: spatial loop openings, address precompute,
source declarations, the channel-group `do ... while` reduction, and the
spatial loop closings (conv_3d.cc:460-697). -/
def segLoop (od : OperationDef) (cp : ConvParams) : List Chunk :=
  zLoopChunks od cp ++ yLoopChunks od cp ++ xLoopChunks od cp ++
  addressChunks od cp ++
  [str ("  int s = 0;\n")] ++
  forR cp.block_size.z (fun z => forR cp.block_size.y (fun y => forR cp.block_size.x (fun x =>
    [str ("  FLT4 src") ++ idc z y x ++ str (";\n")]))) ++
  [str ("  do \x7b\n")] ++
  stagingChunks cp ++
  readSrcChunks od cp ++
  [str ("    s += 1;\n")] ++
  optList (cp.weights_upload_type == WeightsUploadType.LOCAL_MEM_BY_THREADS)
    [str ("    barrier(CLK_LOCAL_MEM_FENCE);\n")] ++
  generateConv od.precision cp.block_size 0 cp.areWeightsBuffer ++
  forR (cp.src_depth_loop_size - 1) (fun i0 =>
    readSrcChunks od cp ++
    generateConv od.precision cp.block_size ((i0 + 1) * cp.block_size.w * 4)
      cp.areWeightsBuffer ++
    [str ("    s += 1;\n")]) ++
  optList cp.areWeightsBuffer
    [str ("    filters_loc += ") ++ nstr (cp.block_size.w * 4 * cp.src_depth_loop_size) ++
     str (";\n")] ++
  [str ("  \x7d while (s < args.src_tensor.Slices());\n")] ++
  optList (!cp.z_kernel_is_1) [str ("  \x7d\n")] ++
  optList (!cp.y_kernel_is_1) [str ("  \x7d\n")] ++
  optList (!cp.x_kernel_is_1) [str ("  \x7d\n")]

/-- Bias staging after the loop (conv_3d.cc:698-712). -/
def biasSeg (cp : ConvParams) : List Chunk :=
  match cp.weights_upload_type with
  | WeightsUploadType.LOCAL_MEM_ASYNC_SUBGROUP =>
    [str ("    async_work_group_copy(weights_cache, args.biases.GetPtr() + DST_S, ") ++
     nstr cp.block_size.w ++ str (", 0);\n")]
  | WeightsUploadType.LOCAL_MEM_BY_THREADS =>
    [str ("  barrier(CLK_LOCAL_MEM_FENCE);\n")] ++
    generateUploadByThreads ("args.biases.GetPtr()") ("DST_S + ") (totalWorkItems cp)
      cp.block_size.w ++
    [str ("  barrier(CLK_LOCAL_MEM_FENCE);\n")]
  | WeightsUploadType.GLOBAL_MEM =>
    [str ("  weights_cache = args.biases.GetPtr() + DST_S;\n")]
  | WeightsUploadType.TEXTURES_MEM => []

/-- The post-loop destination-bounds gate site (conv_3d.cc:713-717). -/
def gateSite2 (cp : ConvParams) : List Chunk := optList (needLocalMem cp) [gateChunk]

/-- `dsts` (conv_3d.cc:719-720). -/
def dstSChunk (s : Nat) : Chunk :=
  if s == 0 then str ("DST_S") else str ("DST_S + ") ++ nstr s

/-- The guarded result writes (conv_3d.cc:718-749). -/
def writesSeg (cp : ConvParams) : List Chunk :=
  forR cp.block_size.w (fun s =>
    [if s == 0 then str ("  if (DST_S >= args.dst_tensor.Slices()) return;\n")
     else str ("  if (DST_S + ") ++ nstr s ++ str (" >= args.dst_tensor.Slices()) return;\n")] ++
    forR cp.block_size.z (fun z => forR cp.block_size.y (fun y => forR cp.block_size.x (fun x =>
      [(if x == 0 then str ("  if (DST_X < args.dst_tensor.Width() && ")
        else str ("  if (DST_X + ") ++ nstr x ++ str (" < args.dst_tensor.Width() && ")) ++
       (if y == 0 then str ("DST_Y < args.dst_tensor.Height() && ")
        else str ("DST_Y + ") ++ nstr y ++ str (" < args.dst_tensor.Height() && ")) ++
       (if z == 0 then str ("DST_Z < args.dst_tensor.Depth()) \x7b\n")
        else str ("DST_Z + ") ++ nstr z ++ str (" < args.dst_tensor.Depth()) \x7b\n")),
       (if cp.areWeightsBuffer then
         str ("    FLT4 res = TO_FLT4(r") ++ nstr s ++ idc z y x ++
           str (") + weights_cache[") ++ nstr s ++ str ("];\n")
        else
         str ("    FLT4 res = TO_FLT4(r") ++ nstr s ++ idc z y x ++
           str (") + args.biases.Read(") ++ dstSChunk s ++ str (");\n")),
       str ("    args.dst_tensor.Write(res, ") ++
         (if x == 0 then str ("DST_X") else str ("DST_X + ") ++ nstr x) ++ str (", ") ++
         (if y == 0 then str ("DST_Y") else str ("DST_Y + ") ++ nstr y) ++ str (", ") ++
         (if z == 0 then str ("DST_Z") else str ("DST_Z + ") ++ nstr z) ++ str (", ") ++
         dstSChunk s ++ str (");\n"),
       str ("  \x7d\n")]))))

/-- Everything emitted before the compute loop (conv_3d.cc:358-459). -/
def segPre (od : OperationDef) (sc : Bool) (cp : ConvParams) : List Chunk :=
  segPreA od cp ++ gateSite1 cp ++ segPreB od sc cp ++ localSite cp ++ segPreC od cp

/-- Everything emitted after the compute loop (conv_3d.cc:698-751). -/
def segPost (cp : ConvParams) : List Chunk :=
  biasSeg cp ++ gateSite2 cp ++ writesSeg cp ++ [str ("\x7d\n")]

/-- All chunks of `GenerateConv3D` (conv_3d.cc:296-752), in emission order. -/
def genChunks (od : OperationDef) (sc : Bool) (cp : ConvParams) : List Chunk :=
  segPre od sc cp ++ segLoop od cp ++ segPost cp

/-- The generated kernel source text: the concatenation of all emitted
chunks.  `GenerateConv3D` is a total function: it returns this text for every
input, with no failure path. -/
def generateConv3D (od : OperationDef) (sc : Bool) (cp : ConvParams) : String :=
  String.mk (genChunks od sc cp).flatten

/-- The named integer parameters declared by the generator
(conv_3d.cc:310-328). -/
def generatorIntArgs (cp : ConvParams) : List String :=
  (if cp.x_kernel_is_1 then [] else ["stride_x", "padding_x", "kernel_size_x", "dilation_x"]) ++
  (if cp.y_kernel_is_1 then [] else ["stride_y", "padding_y", "kernel_size_y", "dilation_y"]) ++
  (if cp.z_kernel_is_1 then [] else ["stride_z", "padding_z", "kernel_size_z", "dilation_z"]) ++
  ["grid_size_s"]

/-- Character-wise incompatibility of two chunk heads: some position inside
the common prefix differs, so no extensions of the two heads coincide. -/
def incompat (p q : Chunk) : Bool := (p.zip q).any (fun pr => pr.1 != pr.2)

/-- A chunk that is neither the destination-bounds gate nor a shared-memory
weights-cache declaration (of any size). -/
def chunkOk (c : Chunk) : Prop := c ≠ gateChunk ∧ ∀ n : Nat, c ≠ localDeclChunk n

/-- A concrete operation definition used in the concrete evaluations:
F32 precision, BUFFER storage, no batch. -/
def odB : OperationDef :=
  ⟨CalculationsPrecision.F32, TensorStorageType.BUFFER, false⟩

/-- A concrete shared-memory-staging configuration (LOCAL_MEM_BY_THREADS)
used in the concrete evaluations. -/
def cpShared : ConvParams :=
  ⟨⟨1, 1, 1, 1⟩, ⟨2, 2, 1⟩, ⟨2, 0, 1⟩, 1,
   WeightsUploadType.LOCAL_MEM_BY_THREADS, false, false, false⟩

/-- A concrete texture-staging configuration used in the concrete
evaluations. -/
def cpTex : ConvParams :=
  ⟨⟨1, 1, 1, 1⟩, ⟨2, 2, 1⟩, ⟨0, 1, 2⟩, 1,
   WeightsUploadType.TEXTURES_MEM, false, false, false⟩

/-- Concrete attributes whose x axis has unit kernel, stride, dilation and
zero prepended padding but appended padding 1. -/
def attrApp : Convolution3DAttributes :=
  ⟨4, 4, 1, 1, 1, 1, 1, 1, 1, 1, 1, 0, 0, 0, 1, 0, 0⟩

/-- Concrete attributes of a genuine 1x1x1 convolution (all three derived
unit-kernel flags hold). -/
def attr111 : Convolution3DAttributes :=
  ⟨4, 4, 1, 1, 1, 1, 1, 1, 1, 1, 1, 0, 0, 0, 0, 0, 0⟩

/-- Concrete attributes with non-unit kernels and nonzero paddings on every
axis, used for the binding evaluations. -/
def attrBind : Convolution3DAttributes :=
  ⟨8, 4, 3, 2, 2, 2, 1, 1, 2, 3, 1, 3, 1, 2, 0, 0, 0⟩

/-- The Nvidia configuration for one input channel group and four output
channel groups, used in the grid evaluations. -/
def cpNvidia : ConvParams :=
  guessBestParams DeviceClass.Nvidia CalculationsPrecision.F32 1 4 false false false

theorem Int3.get_zero (v : Int3) : v.get 0 = v.x := rfl

theorem Int3.get_one (v : Int3) : v.get 1 = v.y := rfl

theorem Int3.get_two (v : Int3) : v.get 2 = v.z := rfl

theorem le_divideRoundUp_mul (e w : Nat) (h : 0 < w) : e ≤ divideRoundUp e w * w := by
  unfold divideRoundUp
  have h1 := Nat.div_add_mod (e + w - 1) w
  have h2 := Nat.mod_lt (e + w - 1) h
  have h3 : (e + w - 1) / w * w = w * ((e + w - 1) / w) := Nat.mul_comm _ _
  omega

theorem ne_of_incompat : ∀ (p q a b : Chunk), incompat p q = true → p ++ a ≠ q ++ b := by
  intro p
  induction p with
  | nil => intro q a b h; simp [incompat] at h
  | cons c p' ih =>
    intro q a b h
    cases q with
    | nil => simp [incompat] at h
    | cons d q' =>
      simp only [incompat, List.zip_cons_cons, List.any_cons, Bool.or_eq_true, bne_iff_ne,
        ne_eq] at h
      intro heq
      simp only [List.cons_append, List.cons.injEq] at heq
      rcases h with h | h
      · exact h heq.1
      · exact ih q' a b h heq.2

theorem ne_right_of_incompat (p a q : Chunk) (h : incompat p q = true) : p ++ a ≠ q := by
  have h2 := ne_of_incompat p q a [] h
  simpa using h2

/-- Claim C1: counterexample.  The spec's padding-before-only unit-kernel
condition disagrees with the code at `attrApp` (appended x padding 1): the
spec's flag is true, the code's derived flag is false. -/
theorem kernelIs1_padding_counterexample :
    specXKernelIs1 attrApp = true ∧ xKernelIs1 attrApp = false := by decide

/-- Claim C1 (amended): each axis's derived unit-kernel flag is a pure
function of the attributes, true iff kernel-extent, stride and dilation are 1
and BOTH the prepended and the appended padding of that axis are 0. -/
theorem kernelIs1_flags_characterization :
    ∀ a : Convolution3DAttributes,
      (xKernelIs1 a = true ↔ a.weights_w = 1 ∧ a.strides_w = 1 ∧ a.dilations_w = 1 ∧
        a.padding_prepended_w = 0 ∧ a.padding_appended_w = 0) ∧
      (yKernelIs1 a = true ↔ a.weights_h = 1 ∧ a.strides_h = 1 ∧ a.dilations_h = 1 ∧
        a.padding_prepended_h = 0 ∧ a.padding_appended_h = 0) ∧
      (zKernelIs1 a = true ↔ a.weights_d = 1 ∧ a.strides_d = 1 ∧ a.dilations_d = 1 ∧
        a.padding_prepended_d = 0 ∧ a.padding_appended_d = 0) := by
  intro a
  refine ⟨?_, ?_, ?_⟩ <;>
    simp [xKernelIs1, yKernelIs1, zKernelIs1, Bool.and_eq_true, beq_iff_eq, and_assoc]

/-- Claim C2: counterexample.  For the generic fallback with five input and
three output channel groups the selector does NOT return an output tile of 3:
the fallback branch applies no divisibility refinement at all. -/
theorem fallback_scenarioB_counterexample :
    (guessBestParams DeviceClass.Other CalculationsPrecision.F32 5 3
      false false false).block_size.w ≠ 3 := by decide

/-- Claim C2 (amended): for the generic fallback with outputChannelGroups=3
and inputChannelGroups=5 the selector returns its fixed base configuration:
block_size.w = 2 and src_depth_loop_size = 1 (no refinement is applied in the
fallback branch). -/
theorem fallback_scenarioB_amended :
    ∀ (prec : CalculationsPrecision) (x1 y1 z1 : Bool),
      (guessBestParams DeviceClass.Other prec 5 3 x1 y1 z1).block_size.w = 2 ∧
      (guessBestParams DeviceClass.Other prec 5 3 x1 y1 z1).src_depth_loop_size = 1 := by
  intro prec x1 y1 z1
  exact ⟨rfl, rfl⟩

/-- Claim C5: counterexample.  On PowerVR with half precision, one output
channel group and three input channel groups, the selector returns
src_depth_loop_size = 3, which is none of 1, 2, 4. -/
theorem unroll_values_counterexample :
    (guessBestParams DeviceClass.PowerVR CalculationsPrecision.F16 3 1
      false false false).src_depth_loop_size = 3 ∧
    ¬((guessBestParams DeviceClass.PowerVR CalculationsPrecision.F16 3 1
        false false false).src_depth_loop_size = 1 ∨
      (guessBestParams DeviceClass.PowerVR CalculationsPrecision.F16 3 1
        false false false).src_depth_loop_size = 2 ∨
      (guessBestParams DeviceClass.PowerVR CalculationsPrecision.F16 3 1
        false false false).src_depth_loop_size = 4) := by decide

set_option maxHeartbeats 2000000 in
/-- Claim C5 (amended): for every device class, precision and channel-group
counts the selected src_depth_loop_size is 1, 2 or 4, except in the PowerVR
half-precision degenerate case of a unit output-channel tile with at most 8
input channel groups, where it equals the input channel-group count. -/
theorem unroll_values_amended :
    ∀ (dev : DeviceClass) (prec : CalculationsPrecision) (ss ds : Nat) (x1 y1 z1 : Bool),
      (guessBestParams dev prec ss ds x1 y1 z1).src_depth_loop_size = 1 ∨
      (guessBestParams dev prec ss ds x1 y1 z1).src_depth_loop_size = 2 ∨
      (guessBestParams dev prec ss ds x1 y1 z1).src_depth_loop_size = 4 ∨
      (dev = DeviceClass.PowerVR ∧ prec = CalculationsPrecision.F16 ∧
       (guessBestParams dev prec ss ds x1 y1 z1).block_size.w = 1 ∧
       ss ≤ 8 ∧ (guessBestParams dev prec ss ds x1 y1 z1).src_depth_loop_size = ss) := by
  intro dev prec ss ds x1 y1 z1
  cases dev
  case Nvidia => simp only [guessBestParams]; split_ifs <;> simp
  case Adreno => simp [guessBestParams]
  case Mali => simp only [guessBestParams]; split_ifs <;> simp
  case Other => simp [guessBestParams]
  case PowerVR =>
    cases prec
    case F32 => simp [guessBestParams]
    case F32_F16 => simp [guessBestParams]
    case F16 =>
      simp only [guessBestParams]
      split_ifs <;> simp_all

/-- Claim C6: the autotuner attempts benchmark-based refinement (invokes the
benchmark hook) exactly when the staging mode is GLOBAL_MEM or TEXTURES_MEM
and the launch order is the identity; whenever it does not, the configuration
is returned unchanged. -/
theorem tune_guard :
    ∀ (cp : ConvParams) (best : Int3),
      ((tune cp best).2 = true ↔
        ((cp.weights_upload_type = WeightsUploadType.GLOBAL_MEM ∨
          cp.weights_upload_type = WeightsUploadType.TEXTURES_MEM) ∧
         cp.work_group_launch_order = ⟨0, 1, 2⟩)) ∧
      ((tune cp best).2 = false → (tune cp best).1 = cp) := by
  intro cp best
  obtain ⟨bs, wgs, ⟨ox, oy, oz⟩, sdl, u, fx, fy, fz⟩ := cp
  unfold tune
  cases u <;> simp [Int3.mk.injEq] <;> split_ifs <;> simp_all

/-- Claim C6: witness at a shared-memory staging configuration. -/
theorem tune_guard_witness : (tune cpShared ⟨1, 1, 1⟩).1 = cpShared :=
  (tune_guard cpShared ⟨1, 1, 1⟩).2 (by decide)

/-- Claim C9: at binding time, the x padding parameter is the negated
prepended x padding scaled by the source batch, the x dilation parameter is
the x dilation scaled by the source batch, while the y and z padding/dilation
parameters are unscaled. -/
theorem bindArguments_batch_scaling :
    ∀ (a : Convolution3DAttributes) (cp : ConvParams) (batch : Int) (dstSlices : Nat),
      cp.x_kernel_is_1 = false →
      (conv3DBindArguments a cp batch dstSlices).lookup ("padding_x") =
        some (-(a.padding_prepended_w : Int) * batch) ∧
      (conv3DBindArguments a cp batch dstSlices).lookup ("dilation_x") =
        some ((a.dilations_w : Int) * batch) ∧
      (cp.y_kernel_is_1 = false →
        (conv3DBindArguments a cp batch dstSlices).lookup ("padding_y") =
          some (-(a.padding_prepended_h : Int)) ∧
        (conv3DBindArguments a cp batch dstSlices).lookup ("dilation_y") =
          some ((a.dilations_h : Int))) ∧
      (cp.z_kernel_is_1 = false →
        (conv3DBindArguments a cp batch dstSlices).lookup ("padding_z") =
          some (-(a.padding_prepended_d : Int)) ∧
        (conv3DBindArguments a cp batch dstSlices).lookup ("dilation_z") =
          some ((a.dilations_d : Int))) := by
  intro a cp batch ds hx
  obtain ⟨bs, wgs, lo, sdl, u, fx, fy, fz⟩ := cp
  cases hx
  cases fy <;> cases fz <;>
    refine ⟨rfl, rfl, ?_, ?_⟩ <;> intro h <;> first
      | exact ⟨rfl, rfl⟩
      | cases h

/-- Claim C9: witness at concrete attributes with batch 2. -/
theorem bindArguments_batch_scaling_witness :
    cpShared.x_kernel_is_1 = false ∧
    (conv3DBindArguments attrBind cpShared 2 7).lookup ("padding_x") =
      some (-(attrBind.padding_prepended_w : Int) * 2) ∧
    (conv3DBindArguments attrBind cpShared 2 7).lookup ("dilation_x") =
      some ((attrBind.dilations_w : Int) * 2) :=
  ⟨rfl, (bindArguments_batch_scaling attrBind cpShared 2 7 rfl).1,
    (bindArguments_batch_scaling attrBind cpShared 2 7 rfl).2.1⟩

/-- Claim C10: every heuristic configuration pairs a shared-memory staging
mode with launch order (2,0,1) and a non-shared staging mode with the
identity launch order, so shared-memory configurations are never autotuned
(both autotuner guards reject them). -/
theorem selector_order_staging_pairing :
    ∀ (dev : DeviceClass) (prec : CalculationsPrecision) (ss ds : Nat) (x1 y1 z1 : Bool),
      (needLocalMem (guessBestParams dev prec ss ds x1 y1 z1) = true ↔
        (guessBestParams dev prec ss ds x1 y1 z1).work_group_launch_order = ⟨2, 0, 1⟩) ∧
      (needLocalMem (guessBestParams dev prec ss ds x1 y1 z1) = false ↔
        (guessBestParams dev prec ss ds x1 y1 z1).work_group_launch_order = ⟨0, 1, 2⟩) ∧
      (needLocalMem (guessBestParams dev prec ss ds x1 y1 z1) = true →
        ∀ best, tune (guessBestParams dev prec ss ds x1 y1 z1) best =
          (guessBestParams dev prec ss ds x1 y1 z1, false)) := by
  intro dev prec ss ds x1 y1 z1
  cases dev <;>
    refine ⟨by simp [needLocalMem, guessBestParams], by simp [needLocalMem, guessBestParams], ?_⟩ <;>
    intro h best <;> simp [needLocalMem, tune, guessBestParams] at h ⊢

/-- Claim C10: witness on the Nvidia class (shared staging, skipped tune). -/
theorem selector_order_staging_pairing_witness :
    tune (guessBestParams DeviceClass.Nvidia CalculationsPrecision.F32 1 4 false false false)
        ⟨1, 1, 1⟩ =
      (guessBestParams DeviceClass.Nvidia CalculationsPrecision.F32 1 4 false false false,
        false) :=
  (selector_order_staging_pairing DeviceClass.Nvidia CalculationsPrecision.F32 1 4
    false false false).2.2 (by decide) ⟨1, 1, 1⟩

/-- Claim C3: counterexample.  With the Nvidia configuration (launch order
(2,0,1), work group (8,4,1)) and output extents W=1, H=4, S=1, D=1, B=1, the
dispatch value of physical dimension 2 times the work-group extent of
dimension 2 is strictly below the element count of the logical dimension
launched there. -/
theorem gridSize_coverage_counterexample :
    (getGridSize cpNvidia 1 4 1 1 1).get 2 * cpNvidia.work_group_size.get 2 <
      elemCount cpNvidia 1 4 1 1 1 (cpNvidia.work_group_launch_order.get 2) := by decide

/-- Claim C3 (amended): for every configuration with positive work-group
extents and a launch-order permutation, each physical dispatch dimension d is
an exact multiple k of the work-group extent of d, and that work-group count
k covers the logical element count of the dimension launched on d when
multiplied by THAT logical dimension's work-group extent. -/
theorem gridSize_coverage_amended :
    ∀ (cp : ConvParams) (W H S D B : Nat),
      0 < cp.work_group_size.x → 0 < cp.work_group_size.y → 0 < cp.work_group_size.z →
      (cp.work_group_launch_order = ⟨0, 1, 2⟩ ∨ cp.work_group_launch_order = ⟨0, 2, 1⟩ ∨
       cp.work_group_launch_order = ⟨1, 0, 2⟩ ∨ cp.work_group_launch_order = ⟨1, 2, 0⟩ ∨
       cp.work_group_launch_order = ⟨2, 0, 1⟩ ∨ cp.work_group_launch_order = ⟨2, 1, 0⟩) →
      ∀ d, d < 3 →
        ∃ k, (getGridSize cp W H S D B).get d = k * cp.work_group_size.get d ∧
          elemCount cp W H S D B (cp.work_group_launch_order.get d) ≤
            k * cp.work_group_size.get (cp.work_group_launch_order.get d) := by
  intro cp W H S D B hx hy hz hperm d hd
  have hd3 : d = 0 ∨ d = 1 ∨ d = 2 := by omega
  rcases hperm with h | h | h | h | h | h <;> rcases hd3 with rfl | rfl | rfl <;>
    simp only [getGridSize, elemCount, h, Int3.get_zero, Int3.get_one, Int3.get_two] <;>
    first
      | exact ⟨_, rfl, le_divideRoundUp_mul _ _ hx⟩
      | exact ⟨_, rfl, le_divideRoundUp_mul _ _ hy⟩
      | exact ⟨_, rfl, le_divideRoundUp_mul _ _ hz⟩

/-- Claim C3: witness at the Nvidia configuration with the same concrete
extents as the counterexample, physical dimension 1. -/
theorem gridSize_coverage_amended_witness :
    ∃ k, (getGridSize cpNvidia 1 4 1 1 1).get 1 = k * cpNvidia.work_group_size.get 1 ∧
      elemCount cpNvidia 1 4 1 1 1 (cpNvidia.work_group_launch_order.get 1) ≤
        k * cpNvidia.work_group_size.get (cpNvidia.work_group_launch_order.get 1) :=
  gridSize_coverage_amended cpNvidia 1 4 1 1 1 (by decide) (by decide) (by decide)
    (by decide) 1 (by decide)

/-- Claim C7: counterexample.  The generator has no failure path: at a
configuration whose unit-kernel flags disagree with the flags derived from
the attributes (attr111 derives x_kernel_is_1 = true, cpShared carries
false), it still returns a (nonempty) kernel artifact. -/
theorem generator_no_failure_counterexample :
    xKernelIs1 attr111 = true ∧ cpShared.x_kernel_is_1 = false ∧
    (genChunks odB false cpShared).flatten ≠ [] := by
  refine ⟨by decide, rfl, by decide⟩

/-- Claim C7 (amended): the generator is a pure, deterministic, total
function: for EVERY operation definition and configuration, including those
whose unit-kernel flags disagree with the ConvSpec-derived flags, it returns
a kernel artifact beginning with the common defines header; no consistency
check is performed and no error is ever signalled. -/
theorem generator_total_amended :
    ∀ (od : OperationDef) (sc : Bool) (cp : ConvParams),
      ∃ rest, (genChunks od sc cp).flatten = getCommonDefines od.precision ++ rest := by
  intro od sc cp
  obtain ⟨t, ht⟩ : ∃ t, genChunks od sc cp = getCommonDefines od.precision :: t := ⟨_, rfl⟩
  exact ⟨t.flatten, by rw [ht, List.flatten_cons]⟩

theorem chunkOk_of_head (p a : Chunk)
    (h1 : incompat p gateChunk = true)
    (h2 : incompat p (str ("  __local FLT4 weights_cache[")) = true) :
    chunkOk (p ++ a) := by
  refine ⟨ne_right_of_incompat p a gateChunk h1, ?_⟩
  intro n
  show p ++ a ≠ localDeclChunk n
  unfold localDeclChunk
  rw [List.append_assoc]
  exact ne_of_incompat _ _ _ _ h2

theorem chunkOk_lit (p : Chunk)
    (h1 : incompat p gateChunk = true)
    (h2 : incompat p (str ("  __local FLT4 weights_cache[")) = true) :
    chunkOk p := by
  have h := chunkOk_of_head p [] h1 h2
  rwa [List.append_nil] at h

theorem localDeclChunk_ne_gate (n : Nat) : localDeclChunk n ≠ gateChunk := by
  unfold localDeclChunk
  rw [List.append_assoc]
  exact ne_right_of_incompat _ _ _ (by decide)

theorem getCommonDefines_ok (p : CalculationsPrecision) : chunkOk (getCommonDefines p) := by
  cases p <;> exact chunkOk_lit _ (by decide) (by decide)

theorem nil_ok : ∀ c ∈ ([] : List Chunk), chunkOk c :=
  fun c hc => absurd hc (List.not_mem_nil c)

theorem append_ok {l1 l2 : List Chunk} (h1 : ∀ c ∈ l1, chunkOk c)
    (h2 : ∀ c ∈ l2, chunkOk c) : ∀ c ∈ l1 ++ l2, chunkOk c := by
  intro c hc
  rcases List.mem_append.mp hc with h | h
  exacts [h1 c h, h2 c h]

theorem optList_ok {b : Bool} {l : List Chunk} (h : ∀ c ∈ l, chunkOk c) :
    ∀ c ∈ optList b l, chunkOk c := by
  intro c hc
  unfold optList at hc
  split at hc
  · exact h c hc
  · exact absurd hc (List.not_mem_nil c)

theorem forR_ok {n : Nat} {f : Nat → List Chunk} (h : ∀ i, ∀ c ∈ f i, chunkOk c) :
    ∀ c ∈ forR n f, chunkOk c := by
  intro c hc
  unfold forR at hc
  obtain ⟨i, -, hci⟩ := List.mem_flatMap.mp hc
  exact h i c hci

theorem ite_list_ok {b : Prop} [Decidable b] {l1 l2 : List Chunk}
    (h1 : ∀ c ∈ l1, chunkOk c) (h2 : ∀ c ∈ l2, chunkOk c) :
    ∀ c ∈ (if b then l1 else l2), chunkOk c := by
  intro c hc
  split at hc
  exacts [h1 c hc, h2 c hc]

theorem cons_ok {a : Chunk} {l : List Chunk} (h : chunkOk a)
    (hl : ∀ c ∈ l, chunkOk c) : ∀ c ∈ a :: l, chunkOk c := by
  intro c hc
  rcases List.mem_cons.mp hc with rfl | hc
  exacts [h, hl c hc]

theorem singleton_ok {a : Chunk} (h : chunkOk a) : ∀ c ∈ [a], chunkOk c :=
  cons_ok h nil_ok

theorem generateGlobalCoordinates_ok (block : Int4) (o : Int3) :
    ∀ c ∈ generateGlobalCoordinates block o, chunkOk c := by
  unfold generateGlobalCoordinates
  refine append_ok (append_ok (append_ok (append_ok (ite_list_ok ?_ ?_) (ite_list_ok ?_ ?_))
    (ite_list_ok ?_ ?_)) ?_) ?_ <;>
    refine singleton_ok ?_ <;> (try simp only [List.append_assoc]) <;>
    first
      | exact chunkOk_of_head _ _ (by decide) (by decide)
      | exact chunkOk_lit _ (by decide) (by decide)

theorem segPreA_ok (od : OperationDef) (cp : ConvParams) :
    ∀ c ∈ segPreA od cp, chunkOk c := by
  unfold segPreA
  refine append_ok (append_ok (append_ok (singleton_ok (getCommonDefines_ok _)) ?_) ?_)
    (generateGlobalCoordinates_ok _ _)
  · refine optList_ok (singleton_ok ?_)
    simp only [List.append_assoc]
    exact chunkOk_of_head _ _ (by decide) (by decide)
  · exact cons_ok (chunkOk_lit _ (by decide) (by decide))
      (singleton_ok (chunkOk_lit _ (by decide) (by decide)))

theorem segPreB_ok (od : OperationDef) (sc : Bool) (cp : ConvParams) :
    ∀ c ∈ segPreB od sc cp, chunkOk c := by
  unfold segPreB
  refine append_ok (append_ok (append_ok (append_ok ?_ ?_) ?_) ?_) ?_
  · refine optList_ok (singleton_ok ?_)
    simp only [List.append_assoc]
    exact chunkOk_of_head _ _ (by decide) (by decide)
  · refine forR_ok fun s => forR_ok fun z => forR_ok fun y => forR_ok fun x =>
      singleton_ok ?_
    simp only [List.append_assoc]
    exact chunkOk_of_head _ _ (by decide) (by decide)
  · refine ite_list_ok (forR_ok fun x => singleton_ok ?_)
      (ite_list_ok (forR_ok fun x => singleton_ok ?_) nil_ok) <;>
      (repeat' split) <;> (try simp only [List.append_assoc]) <;>
      first
        | exact chunkOk_of_head _ _ (by decide) (by decide)
        | exact chunkOk_lit _ (by decide) (by decide)
  · refine ite_list_ok (forR_ok fun y => singleton_ok ?_)
      (ite_list_ok (forR_ok fun y => singleton_ok ?_) nil_ok) <;>
      simp only [List.append_assoc] <;>
      exact chunkOk_of_head _ _ (by decide) (by decide)
  · refine ite_list_ok (forR_ok fun z => singleton_ok ?_)
      (ite_list_ok (forR_ok fun z => singleton_ok ?_) nil_ok) <;>
      simp only [List.append_assoc] <;>
      exact chunkOk_of_head _ _ (by decide) (by decide)

theorem segPreC_ok (od : OperationDef) (cp : ConvParams) :
    ∀ c ∈ segPreC od cp, chunkOk c := by
  unfold segPreC
  refine append_ok (append_ok (append_ok ?_ ?_) ?_) ?_ <;>
    refine optList_ok (singleton_ok ?_) <;> (try simp only [List.append_assoc]) <;>
    first
      | exact chunkOk_of_head _ _ (by decide) (by decide)
      | exact chunkOk_lit _ (by decide) (by decide)

theorem zLoopChunks_ok (od : OperationDef) (cp : ConvParams) :
    ∀ c ∈ zLoopChunks od cp, chunkOk c := by
  unfold zLoopChunks
  refine optList_ok (append_ok (singleton_ok ?_) (forR_ok fun z => append_ok
    (singleton_ok ?_) (optList_ok (cons_ok ?_ (singleton_ok ?_))))) <;>
    (try simp only [List.append_assoc]) <;>
    first
      | exact chunkOk_of_head _ _ (by decide) (by decide)
      | exact chunkOk_lit _ (by decide) (by decide)

theorem yLoopChunks_ok (od : OperationDef) (cp : ConvParams) :
    ∀ c ∈ yLoopChunks od cp, chunkOk c := by
  unfold yLoopChunks
  refine optList_ok (append_ok (singleton_ok ?_) (forR_ok fun y => append_ok
    (singleton_ok ?_) (optList_ok (cons_ok ?_ (singleton_ok ?_))))) <;>
    (try simp only [List.append_assoc]) <;>
    first
      | exact chunkOk_of_head _ _ (by decide) (by decide)
      | exact chunkOk_lit _ (by decide) (by decide)

theorem xLoopChunks_ok (od : OperationDef) (cp : ConvParams) :
    ∀ c ∈ xLoopChunks od cp, chunkOk c := by
  unfold xLoopChunks
  refine optList_ok (append_ok (singleton_ok ?_) (forR_ok fun x => append_ok
    (singleton_ok ?_) (optList_ok (cons_ok ?_ (singleton_ok ?_))))) <;>
    (try simp only [List.append_assoc]) <;>
    first
      | exact chunkOk_of_head _ _ (by decide) (by decide)
      | exact chunkOk_lit _ (by decide) (by decide)

theorem addressChunks_ok (od : OperationDef) (cp : ConvParams) :
    ∀ c ∈ addressChunks od cp, chunkOk c := by
  unfold addressChunks
  refine optList_ok (forR_ok fun z => forR_ok fun y => forR_ok fun x => ?_)
  refine append_ok (singleton_ok ?_) (optList_ok (cons_ok ?_ (singleton_ok ?_))) <;>
    simp only [List.append_assoc] <;>
    exact chunkOk_of_head _ _ (by decide) (by decide)

theorem readSrcChunks_ok (od : OperationDef) (cp : ConvParams) :
    ∀ c ∈ readSrcChunks od cp, chunkOk c := by
  unfold readSrcChunks
  refine forR_ok fun z => forR_ok fun y => forR_ok fun x => ?_
  refine ite_list_ok (append_ok (singleton_ok ?_) (singleton_ok ?_)) (singleton_ok ?_) <;>
    (repeat' split) <;> (try simp only [List.append_assoc]) <;>
    first
      | exact chunkOk_of_head _ _ (by decide) (by decide)
      | exact chunkOk_lit _ (by decide) (by decide)

theorem generateUploadByThreads_ok (globalPtr offset : String) (twi elems : Nat) :
    ∀ c ∈ generateUploadByThreads globalPtr offset twi elems, chunkOk c := by
  unfold generateUploadByThreads
  refine append_ok (forR_ok fun i => singleton_ok ?_)
    (optList_ok (cons_ok ?_ (cons_ok ?_ (singleton_ok ?_)))) <;>
    (try simp only [List.append_assoc]) <;>
    first
      | exact chunkOk_of_head _ _ (by decide) (by decide)
      | exact chunkOk_lit _ (by decide) (by decide)

theorem generateConv_ok (precision : CalculationsPrecision) (block : Int4)
    (offset : Nat) (wb : Bool) : ∀ c ∈ generateConv precision block offset wb, chunkOk c := by
  cases precision <;> unfold generateConv <;>
    refine forR_ok fun s => forR_ok fun i2 => forR_ok fun z => forR_ok fun y =>
      (?_ : ∀ c ∈ _, chunkOk c)
  case F32_F16 =>
    refine singleton_ok ?_
    simp only [List.append_assoc]
    exact chunkOk_of_head _ _ (by decide) (by decide)
  all_goals refine forR_ok fun x => singleton_ok ?_
  all_goals simp only [List.append_assoc]
  all_goals exact chunkOk_of_head _ _ (by decide) (by decide)

theorem stagingChunks_ok (cp : ConvParams) : ∀ c ∈ stagingChunks cp, chunkOk c := by
  obtain ⟨bs, wgs, lo, sdl, u, fx, fy, fz⟩ := cp
  cases u <;> unfold stagingChunks <;> dsimp only
  case LOCAL_MEM_ASYNC_SUBGROUP =>
    refine singleton_ok ?_
    simp only [List.append_assoc]
    exact chunkOk_of_head _ _ (by decide) (by decide)
  case LOCAL_MEM_BY_THREADS =>
    exact cons_ok (chunkOk_lit _ (by decide) (by decide))
      (generateUploadByThreads_ok _ _ _ _)
  case GLOBAL_MEM =>
    exact singleton_ok (chunkOk_lit _ (by decide) (by decide))
  case TEXTURES_MEM =>
    refine append_ok (forR_ok fun ds => singleton_ok ?_)
      (optList_ok (singleton_ok (chunkOk_lit _ (by decide) (by decide))))
    simp only [List.append_assoc]
    exact chunkOk_of_head _ _ (by decide) (by decide)

theorem biasSeg_ok (cp : ConvParams) : ∀ c ∈ biasSeg cp, chunkOk c := by
  obtain ⟨bs, wgs, lo, sdl, u, fx, fy, fz⟩ := cp
  cases u <;> unfold biasSeg <;> dsimp only
  case LOCAL_MEM_ASYNC_SUBGROUP =>
    refine singleton_ok ?_
    simp only [List.append_assoc]
    exact chunkOk_of_head _ _ (by decide) (by decide)
  case LOCAL_MEM_BY_THREADS =>
    exact append_ok (cons_ok (chunkOk_lit _ (by decide) (by decide))
      (generateUploadByThreads_ok _ _ _ _))
      (singleton_ok (chunkOk_lit _ (by decide) (by decide)))
  case GLOBAL_MEM =>
    exact singleton_ok (chunkOk_lit _ (by decide) (by decide))
  case TEXTURES_MEM => exact nil_ok

theorem writesSeg_ok (cp : ConvParams) : ∀ c ∈ writesSeg cp, chunkOk c := by
  unfold writesSeg
  refine forR_ok fun s => append_ok (singleton_ok ?_)
    (forR_ok fun z => forR_ok fun y => forR_ok fun x =>
      cons_ok ?_ (cons_ok ?_ (cons_ok ?_ (singleton_ok ?_)))) <;>
    (repeat' split) <;> (try simp only [List.append_assoc]) <;>
    first
      | exact chunkOk_of_head _ _ (by decide) (by decide)
      | exact chunkOk_lit _ (by decide) (by decide)

theorem segLoop_ok (od : OperationDef) (cp : ConvParams) :
    ∀ c ∈ segLoop od cp, chunkOk c := by
  have h6 : ∀ c ∈ forR cp.block_size.z (fun z => forR cp.block_size.y (fun y =>
      forR cp.block_size.x (fun x => [str ("  FLT4 src") ++ idc z y x ++ str (";\n")]))),
      chunkOk c := by
    refine forR_ok fun z => forR_ok fun y => forR_ok fun x => singleton_ok ?_
    simp only [List.append_assoc]
    exact chunkOk_of_head _ _ (by decide) (by decide)
  have h13 : ∀ c ∈ forR (cp.src_depth_loop_size - 1) (fun i0 =>
      readSrcChunks od cp ++
      generateConv od.precision cp.block_size ((i0 + 1) * cp.block_size.w * 4)
        cp.areWeightsBuffer ++
      [str ("    s += 1;\n")]), chunkOk c :=
    forR_ok fun i0 => append_ok (append_ok (readSrcChunks_ok od cp)
      (generateConv_ok _ _ _ _))
      (singleton_ok (chunkOk_lit _ (by decide) (by decide)))
  have h14 : ∀ c ∈ optList cp.areWeightsBuffer
      [str ("    filters_loc += ") ++ nstr (cp.block_size.w * 4 * cp.src_depth_loop_size) ++
       str (";\n")], chunkOk c := by
    refine optList_ok (singleton_ok ?_)
    simp only [List.append_assoc]
    exact chunkOk_of_head _ _ (by decide) (by decide)
  unfold segLoop
  exact append_ok (append_ok (append_ok (append_ok (append_ok (append_ok (append_ok
    (append_ok (append_ok (append_ok (append_ok (append_ok (append_ok (append_ok
    (append_ok (append_ok (append_ok
      (zLoopChunks_ok od cp)
      (yLoopChunks_ok od cp))
      (xLoopChunks_ok od cp))
      (addressChunks_ok od cp))
      (singleton_ok (chunkOk_lit _ (by decide) (by decide))))
      h6)
      (singleton_ok (chunkOk_lit _ (by decide) (by decide))))
      (stagingChunks_ok cp))
      (readSrcChunks_ok od cp))
      (singleton_ok (chunkOk_lit _ (by decide) (by decide))))
      (optList_ok (singleton_ok (chunkOk_lit _ (by decide) (by decide)))))
      (generateConv_ok _ _ _ _))
      h13)
      h14)
      (singleton_ok (chunkOk_lit _ (by decide) (by decide))))
      (optList_ok (singleton_ok (chunkOk_lit _ (by decide) (by decide)))))
      (optList_ok (singleton_ok (chunkOk_lit _ (by decide) (by decide)))))
      (optList_ok (singleton_ok (chunkOk_lit _ (by decide) (by decide))))

theorem gate_not_mem {l : List Chunk} (h : ∀ c ∈ l, chunkOk c) : gateChunk ∉ l :=
  fun hmem => (h _ hmem).1 rfl

theorem count_gate_zero {l : List Chunk} (h : ∀ c ∈ l, chunkOk c) :
    List.count gateChunk l = 0 :=
  List.count_eq_zero.mpr (gate_not_mem h)

theorem count_gate_localSite (cp : ConvParams) :
    List.count gateChunk (localSite cp) = 0 := by
  refine List.count_eq_zero.mpr ?_
  intro hmem
  unfold localSite optList at hmem
  split at hmem
  · exact localDeclChunk_ne_gate _ (List.mem_singleton.mp hmem).symm
  · exact absurd hmem (List.not_mem_nil _)

theorem count_gate_brace : List.count gateChunk [str ("\x7d\n")] = 0 := by decide

theorem localDeclChunk_ne_brace (n : Nat) : localDeclChunk n ≠ str ("\x7d\n") := by
  unfold localDeclChunk
  rw [List.append_assoc]
  exact ne_right_of_incompat _ _ _ (by decide)

theorem mem_gateSite1_elim {c : Chunk} {cp : ConvParams} (h : c ∈ gateSite1 cp) :
    needLocalMem cp = false ∧ c = gateChunk := by
  unfold gateSite1 optList at h
  split at h
  case isTrue hb => exact ⟨by simpa using hb, List.mem_singleton.mp h⟩
  case isFalse => exact absurd h (List.not_mem_nil _)

theorem mem_gateSite2_elim {c : Chunk} {cp : ConvParams} (h : c ∈ gateSite2 cp) :
    needLocalMem cp = true ∧ c = gateChunk := by
  unfold gateSite2 optList at h
  split at h
  case isTrue hb => exact ⟨hb, List.mem_singleton.mp h⟩
  case isFalse => exact absurd h (List.not_mem_nil _)

theorem mem_localSite_elim {c : Chunk} {cp : ConvParams} (h : c ∈ localSite cp) :
    needLocalMem cp = true ∧
    c = localDeclChunk (cp.block_size.w * 4 * cp.src_depth_loop_size) := by
  unfold localSite optList at h
  split at h
  case isTrue hb => exact ⟨hb, List.mem_singleton.mp h⟩
  case isFalse => exact absurd h (List.not_mem_nil _)

theorem mem_segPre_elim {c : Chunk} {od : OperationDef} {sc : Bool} {cp : ConvParams}
    (h : c ∈ segPre od sc cp) :
    c ∈ segPreA od cp ∨ c ∈ gateSite1 cp ∨ c ∈ segPreB od sc cp ∨
    c ∈ localSite cp ∨ c ∈ segPreC od cp := by
  unfold segPre at h
  rcases List.mem_append.mp h with h | h
  · rcases List.mem_append.mp h with h | h
    · rcases List.mem_append.mp h with h | h
      · rcases List.mem_append.mp h with h | h
        · exact Or.inl h
        · exact Or.inr (Or.inl h)
      · exact Or.inr (Or.inr (Or.inl h))
    · exact Or.inr (Or.inr (Or.inr (Or.inl h)))
  · exact Or.inr (Or.inr (Or.inr (Or.inr h)))

theorem mem_segPost_elim {c : Chunk} {cp : ConvParams} (h : c ∈ segPost cp) :
    c ∈ biasSeg cp ∨ c ∈ gateSite2 cp ∨ c ∈ writesSeg cp ∨ c = str ("\x7d\n") := by
  unfold segPost at h
  rcases List.mem_append.mp h with h | h
  · rcases List.mem_append.mp h with h | h
    · rcases List.mem_append.mp h with h | h
      · exact Or.inl h
      · exact Or.inr (Or.inl h)
    · exact Or.inr (Or.inr (Or.inl h))
  · exact Or.inr (Or.inr (Or.inr (List.mem_singleton.mp h)))

theorem mem_genChunks_elim {c : Chunk} {od : OperationDef} {sc : Bool} {cp : ConvParams}
    (h : c ∈ genChunks od sc cp) :
    c ∈ segPre od sc cp ∨ c ∈ segLoop od cp ∨ c ∈ segPost cp := by
  unfold genChunks at h
  rcases List.mem_append.mp h with h | h
  · rcases List.mem_append.mp h with h | h
    · exact Or.inl h
    · exact Or.inr (Or.inl h)
  · exact Or.inr (Or.inr h)

theorem gate_mem_gateSite2 {cp : ConvParams} (h : needLocalMem cp = true) :
    gateChunk ∈ gateSite2 cp := by
  unfold gateSite2 optList
  rw [h]
  exact List.mem_singleton.mpr rfl

theorem gate_mem_gateSite1 {cp : ConvParams} (h : needLocalMem cp = false) :
    gateChunk ∈ gateSite1 cp := by
  unfold gateSite1 optList
  rw [h]
  exact List.mem_singleton.mpr rfl

theorem gate_mem_segPost {cp : ConvParams} (h : needLocalMem cp = true) :
    gateChunk ∈ segPost cp := by
  unfold segPost
  exact List.mem_append.mpr (Or.inl (List.mem_append.mpr (Or.inl
    (List.mem_append.mpr (Or.inr (gate_mem_gateSite2 h))))))

theorem gate_mem_segPre {od : OperationDef} {sc : Bool} {cp : ConvParams}
    (h : needLocalMem cp = false) : gateChunk ∈ segPre od sc cp := by
  unfold segPre
  exact List.mem_append.mpr (Or.inl (List.mem_append.mpr (Or.inl
    (List.mem_append.mpr (Or.inl (List.mem_append.mpr (Or.inr
    (gate_mem_gateSite1 h))))))))

theorem count_gate_gateSite1 (cp : ConvParams) :
    List.count gateChunk (gateSite1 cp) = if needLocalMem cp then 0 else 1 := by
  unfold gateSite1 optList
  cases h : needLocalMem cp <;> simp

theorem count_gate_gateSite2 (cp : ConvParams) :
    List.count gateChunk (gateSite2 cp) = if needLocalMem cp then 1 else 0 := by
  unfold gateSite2 optList
  cases h : needLocalMem cp <;> simp

/-- Claim C4: counterexample.  At a concrete shared-memory-staging
configuration the generated text does NOT contain the destination-bounds gate
both before and after the compute loop: the pre-loop region has no gate (it
is emitted only after the loop). -/
theorem gate_placement_counterexample :
    needLocalMem cpShared = true ∧
    ¬(gateChunk ∈ segPre odB false cpShared ∧ gateChunk ∈ segPost cpShared) := by
  refine ⟨rfl, ?_⟩
  intro h
  exact absurd h.1 (by decide)

/-- Claim C4 (amended): the generator emits the global destination-bounds
gate exactly once: after the compute loop when the staging mode is one of the
two shared-memory modes (a fixed work-group size forbids returning before the
barriers), and before the compute loop otherwise; the per-element write
bounds checks are emitted in every mode. -/
theorem gate_placement_amended :
    ∀ (od : OperationDef) (sc : Bool) (cp : ConvParams),
      (needLocalMem cp = true →
        gateChunk ∉ segPre od sc cp ∧ gateChunk ∉ segLoop od cp ∧
        gateChunk ∈ segPost cp) ∧
      (needLocalMem cp = false →
        gateChunk ∈ segPre od sc cp ∧ gateChunk ∉ segLoop od cp ∧
        gateChunk ∉ segPost cp) ∧
      List.count gateChunk (genChunks od sc cp) = 1 := by
  intro od sc cp
  have hA := segPreA_ok od cp
  have hB := segPreB_ok od sc cp
  have hC := segPreC_ok od cp
  have hLoop := segLoop_ok od cp
  have hBias := biasSeg_ok cp
  have hWrites := writesSeg_ok cp
  refine ⟨?_, ?_, ?_⟩
  · intro hlm
    refine ⟨?_, gate_not_mem hLoop, gate_mem_segPost hlm⟩
    intro hmem
    rcases mem_segPre_elim hmem with h | h | h | h | h
    · exact (hA _ h).1 rfl
    · exact absurd hlm (by simp [(mem_gateSite1_elim h).1])
    · exact (hB _ h).1 rfl
    · exact localDeclChunk_ne_gate _ (mem_localSite_elim h).2.symm
    · exact (hC _ h).1 rfl
  · intro hlm
    refine ⟨gate_mem_segPre hlm, gate_not_mem hLoop, ?_⟩
    intro hmem
    rcases mem_segPost_elim hmem with h | h | h | h
    · exact (hBias _ h).1 rfl
    · exact absurd hlm (by simp [(mem_gateSite2_elim h).1])
    · exact (hWrites _ h).1 rfl
    · exact absurd h (by decide)
  · unfold genChunks segPre segPost
    simp only [List.count_append, count_gate_zero hA, count_gate_zero hB,
      count_gate_zero hC, count_gate_zero hLoop, count_gate_zero hBias,
      count_gate_zero hWrites, count_gate_localSite, count_gate_brace,
      count_gate_gateSite1, count_gate_gateSite2]
    cases hlm : needLocalMem cp <;> simp

/-- Claim C4: witness.  At the concrete shared-staging configuration the
amended placement holds: no gate before the loop, a gate after it. -/
theorem gate_placement_amended_witness :
    needLocalMem cpShared = true ∧
    (gateChunk ∉ segPre odB false cpShared ∧ gateChunk ∉ segLoop odB cpShared ∧
     gateChunk ∈ segPost cpShared) :=
  ⟨rfl, (gate_placement_amended odB false cpShared).1 rfl⟩

theorem localDecl_mem_segPre {od : OperationDef} {sc : Bool} {cp : ConvParams}
    (h : needLocalMem cp = true) :
    localDeclChunk (cp.block_size.w * 4 * cp.src_depth_loop_size) ∈ segPre od sc cp := by
  unfold segPre
  refine List.mem_append.mpr (Or.inl (List.mem_append.mpr (Or.inr ?_)))
  unfold localSite optList
  rw [h]
  exact List.mem_singleton.mpr rfl

/-- Claim C8: for every configuration with a shared-memory staging mode, the
generated text declares the local weights cache with exactly
block_size.w * 4 * src_depth_loop_size elements, and every local weights
cache declaration in the text is that one. -/
theorem localMem_size_exact :
    ∀ (od : OperationDef) (sc : Bool) (cp : ConvParams),
      needLocalMem cp = true →
      localDeclChunk (cp.block_size.w * 4 * cp.src_depth_loop_size) ∈ genChunks od sc cp ∧
      ∀ n, localDeclChunk n ∈ genChunks od sc cp →
        localDeclChunk n = localDeclChunk (cp.block_size.w * 4 * cp.src_depth_loop_size) := by
  intro od sc cp hlm
  have hA := segPreA_ok od cp
  have hB := segPreB_ok od sc cp
  have hC := segPreC_ok od cp
  have hLoop := segLoop_ok od cp
  have hBias := biasSeg_ok cp
  have hWrites := writesSeg_ok cp
  constructor
  · unfold genChunks
    exact List.mem_append.mpr (Or.inl (List.mem_append.mpr (Or.inl
      (localDecl_mem_segPre hlm))))
  · intro n hmem
    rcases mem_genChunks_elim hmem with h | h | h
    · rcases mem_segPre_elim h with h | h | h | h | h
      · exact absurd rfl ((hA _ h).2 n)
      · exact absurd (mem_gateSite1_elim h).2 (fun he => localDeclChunk_ne_gate n he)
      · exact absurd rfl ((hB _ h).2 n)
      · exact (mem_localSite_elim h).2
      · exact absurd rfl ((hC _ h).2 n)
    · exact absurd rfl ((hLoop _ h).2 n)
    · rcases mem_segPost_elim h with h | h | h | h
      · exact absurd rfl ((hBias _ h).2 n)
      · exact absurd (mem_gateSite2_elim h).2 (fun he => localDeclChunk_ne_gate n he)
      · exact absurd rfl ((hWrites _ h).2 n)
      · exact absurd h (localDeclChunk_ne_brace n)

/-- Claim C8: witness at the concrete shared-staging configuration (declared
size 1 * 4 * 1 = 4). -/
theorem localMem_size_exact_witness :
    needLocalMem cpShared = true ∧
    localDeclChunk (cpShared.block_size.w * 4 * cpShared.src_depth_loop_size) ∈
      genChunks odB false cpShared :=
  ⟨rfl, (localMem_size_exact odB false cpShared rfl).1⟩
